import Mathlib

/-!
# Verification of the chat/RAG service (`app/services/qa.py`, `app/api/chat.py`)

A shallow embedding of the service layer (`QAService`) and the HTTP façade
routes of the repository. Text is modelled as `List Char`; the process-local
mutable state of the service singleton is the structure `QAState`, and each
Python method becomes a pure Lean function that threads the state explicitly.
External effects (the language-model call, the embedding/index construction,
wall-clock latency) are passed in as explicit oracle arguments: an
`Except Str Str` for a call that may raise, an `Option Str` for a call that
raises exactly when the option is `some`, and a `Nat` for a measured latency.
-/

/-- Text, as the Python `str`: a sequence of characters. -/
abbrev Str := List Char

/-- Coerce a Lean string literal to the `Str` model. -/
def str (s : String) : Str := s.toList

/-- Python `str.strip()`: remove leading and trailing whitespace. -/
def pyStrip (s : Str) : Str :=
  ((s.dropWhile Char.isWhitespace).reverse.dropWhile Char.isWhitespace).reverse

/-- Python `str.endswith(suffix)` on our character-list texts. -/
def strEndsWith (s suffix : Str) : Bool :=
  suffix.isSuffixOf s

/-- Decimal digit character. -/
def digitChar (n : Nat) : Char := Char.ofNat (48 + n)

/-- Fuelled decimal printer (helper for `natToStr`). -/
def natToStrGo : Nat → Nat → Str → Str
  | 0, _, acc => acc
  | fuel + 1, n, acc =>
    if n < 10 then digitChar n :: acc
    else natToStrGo fuel (n / 10) (digitChar (n % 10) :: acc)

/-- Python `str(n)` for a natural number (used by `str(HTTPException)`). -/
def natToStr (n : Nat) : Str := natToStrGo (n + 1) n []

/-!
## Data model

`Document` mirrors `langchain.schema.Document` as constructed in
`QAService.add_document`: the page content plus the metadata fields the code
sets (`filename`, `type`, `timestamp`).  The timestamp is the ingestion time,
supplied by the environment (in Python, `datetime.utcnow()`), modelled as a
`Nat` clock value passed to `add_document`.
-/

structure Document where
  page_content : Str
  filename : Str
  doc_type : Str
  timestamp : Nat
deriving DecidableEq, Repr

/-- Chat roles stored in a `ConversationBufferMemory` transcript. -/
inductive Role where
  | human
  | ai
deriving DecidableEq, Repr

/-- `ConversationBufferMemory`: the ordered transcript of a session. -/
abbrev Memory := List (Role × Str)

/--
The FAISS vector store, reduced to what the service observes of it: the list
of stored documents (each entry pairs an embedded text with its metadata),
in insertion order.  `FAISS.from_documents ds` stores exactly `ds`;
`merge_from` appends the other store's entries.
-/
structure VectorStore where
  entries : List Document
deriving DecidableEq, Repr

/-- The mutable fields of the `QAService` singleton. -/
structure QAState where
  sessions : List (String × Memory)
  documents : List Document
  vector_store : Option VectorStore
deriving DecidableEq, Repr

/-- The state of the freshly constructed service (`QAService.__init__`). -/
def initialState : QAState :=
  { sessions := [], documents := [], vector_store := none }

/-- Dictionary lookup in the session map (`self.sessions[session_id]`). -/
def lookupSession (l : List (String × Memory)) (sid : String) : Option Memory :=
  (l.find? (fun p => p.1 == sid)).map (·.2)

/-- Python `session_id in self.sessions`. -/
def sessionMember (l : List (String × Memory)) (sid : String) : Bool :=
  (l.find? (fun p => p.1 == sid)).isSome

/-!
## Session store (`_get_or_create_session_memory`, `clear_session_memory`)
-/

/--
`QAService._get_or_create_session_memory`.  With no `session_id` it returns a
brand-new empty `ConversationBufferMemory` and leaves the map untouched; with
a `session_id` it inserts an empty memory on first reference and returns the
stored entry.  The returned pair is (memory handed to the chain, state).
-/
def get_or_create_session_memory (st : QAState) (session_id : Option String) :
    Memory × QAState :=
  match session_id with
  | none => ([], st)
  | some sid =>
    if sessionMember st.sessions sid then
      ((lookupSession st.sessions sid).getD [], st)
    else
      ([], { st with sessions := st.sessions ++ [(sid, [])] })

/--
`QAService.clear_session_memory`: `del self.sessions[session_id]` guarded by a
membership test; clearing an absent identifier does nothing.
-/
def clear_session_memory (st : QAState) (session_id : String) : QAState :=
  if sessionMember st.sessions session_id then
    { st with sessions := st.sessions.eraseP (fun p => p.1 == session_id) }
  else st

/--
Mutation of the memory object returned by `_get_or_create_session_memory`,
as seen through the session map: if the memory was fetched for a stored
`session_id`, the map's entry now holds the grown transcript; an anonymous
memory is unreachable from the map, so the map is unchanged.
-/
def writeBackMemory (st : QAState) (session_id : Option String) (m : Memory) :
    QAState :=
  match session_id with
  | none => st
  | some sid =>
    { st with sessions := st.sessions.map (fun p => if p.1 == sid then (p.1, m) else p) }

/-- `QAService.get_document_count`. -/
def get_document_count (st : QAState) : Nat := st.documents.length

/-- `QAService.get_session_count`. -/
def get_session_count (st : QAState) : Nat := st.sessions.length

/-!
## Text splitting (`RecursiveCharacterTextSplitter(chunk_size=1000, chunk_overlap=200)`)

Modelled from the spec: the splitter itself is library code absent from this
repository; §3 of the spec describes a Chunk as "a contiguous slice of a
Document's content (target length and overlap are fixed configuration)", with
chunk size 1000 and overlap 200 fixed in `add_document`.  A text no longer
than the chunk size is kept whole; a longer text is cut into windows of the
chunk size whose starts advance by size minus overlap.
-/

def chunk_size : Nat := 1000

def chunk_overlap : Nat := 200

/-- Fuelled worker for `splitChars` (fuel bounds the recursion depth). -/
def splitCharsGo : Nat → Str → List Str
  | 0, s => [s]
  | fuel + 1, s =>
    if s.length ≤ chunk_size then [s]
    else s.take chunk_size :: splitCharsGo fuel (s.drop (chunk_size - chunk_overlap))

/-- Split one text into chunks of at most `chunk_size` with `chunk_overlap` overlap. -/
def splitChars (s : Str) : List Str := splitCharsGo s.length s

/-- Chunks of one document: each chunk keeps the parent's metadata. -/
def splitDocument (d : Document) : List Document :=
  (splitChars d.page_content).map (fun c => { d with page_content := c })

/-- `text_splitter.split_documents`: each document is split independently. -/
def splitDocuments (ds : List Document) : List Document :=
  (ds.map splitDocument).flatten

/-!
## Document ingestion (`QAService.add_document`)
-/

/-- The document object built at the top of `add_document`. -/
def mkDocument (content filename document_type : Str) (now : Nat) : Document :=
  { page_content := content, filename := filename, doc_type := document_type,
    timestamp := now }

/--
`QAService.add_document`.  Appends the new document to `self.documents`, then
recomputes chunks for the whole corpus, then builds or extends the vector
store.  On the first ingestion the store is `FAISS.from_documents(chunks, …)`
over the corpus-wide chunk list; on every later ingestion the store is merged
with `FAISS.from_documents([doc], …)` — the raw, unsplit new document.
`embedFail` is the oracle for the embedding/index-construction call: `some e`
means that call raises `e`.  The result pairs the propagated exception (if
any) with the state as left behind: the append to `self.documents` happens
before the fallible call, so a failure still leaves the document appended and
the vector store untouched.
-/
def add_document (st : QAState) (content filename document_type : Str)
    (now : Nat) (embedFail : Option Str) : Option Str × QAState :=
  let doc := mkDocument content filename document_type now
  let documents' := st.documents ++ [doc]
  let st1 := { st with documents := documents' }
  match embedFail with
  | some e => (some e, st1)
  | none =>
    let chunks := splitDocuments documents'
    match st.vector_store with
    | none => (none, { st1 with vector_store := some ⟨chunks⟩ })
    | some vs => (none, { st1 with vector_store := some ⟨vs.entries ++ [doc]⟩ })

/-- The texts stored in the similarity index (empty when no index exists). -/
def indexContents (st : QAState) : List Str :=
  match st.vector_store with
  | none => []
  | some vs => vs.entries.map (·.page_content)

/-- The corpus-wide chunk list recomputed from all ingested documents. -/
def corpusChunkContents (st : QAState) : List Str :=
  (splitDocuments st.documents).map (·.page_content)

/-- One ingestion request: content, filename, document type, clock value. -/
abbrev AddInput := Str × Str × Str × Nat

/-- Run a sequence of successful `add_document` calls (embedding never fails). -/
def runAdds (st : QAState) : List AddInput → QAState
  | [] => st
  | (c, f, t, now) :: rest => runAdds (add_document st c f t now none).2 rest

/-!
## Chat response (`QAService.get_chat_response`)
-/

/-- The apology prefix of the chat error path. -/
def chatErrorPrefix : Str := str "Desculpe, ocorreu um erro ao processar sua mensagem: "

/--
`QAService.get_chat_response`.  Resolves the session memory, runs the
`LLMChain` (modelled by the oracle `llmResult : Except Str Str` carrying the
raw model output or the raised error's text), and returns the stripped answer
with the measured latency.  On success the chain records the exchange into
the memory object it was given; on any exception the apology string embedding
the error text is returned with the latency measured at the failure point.
The `latency` argument is the wall-clock measurement oracle.
-/
def get_chat_response (st : QAState) (message : Str) (session_id : Option String)
    (llmResult : Except Str Str) (latency : Nat) : (Str × Nat) × QAState :=
  let (memory, st1) := get_or_create_session_memory st session_id
  match llmResult with
  | .ok response =>
    let memory' := memory ++ [(Role.human, message), (Role.ai, response)]
    ((pyStrip response, latency), writeBackMemory st1 session_id memory')
  | .error e => ((chatErrorPrefix ++ e, latency), st1)

/-!
## RAG response (`QAService.get_rag_response`)
-/

/-- The fixed sentinel answer returned when no document was ever ingested. -/
def noDocumentsMessage : Str :=
  str "Nenhum documento foi carregado ainda. Por favor, faça upload de documentos primeiro."

/-- The apology prefix of the RAG error path. -/
def ragErrorPrefix : Str := str "Desculpe, ocorreu um erro ao processar sua pergunta: "

/-- Truncation of a retrieved chunk to a 200-character excerpt plus ellipsis. -/
def sourceExcerpt (content : Str) : Str :=
  if content.length > 200 then content.take 200 ++ str "..." else content

/-- One formatted source line: `[filename] excerpt`. -/
def formatSource (d : Document) : Str :=
  ('[' :: d.filename ++ str "] ") ++ sourceExcerpt d.page_content

/--
`QAService.get_rag_response`.  If the vector store is `None` it returns the
fixed sentinel, no sources and the (near-zero) measured latency without
running any chain.  Otherwise the `RetrievalQA` chain runs (modelled by the
oracle `chainResult`: on success the answer text together with the
`source_documents` the retriever picked from the store, on failure the raised
error's text) and the sources are formatted from the retrieved documents.
-/
def get_rag_response (st : QAState) (question : Str) (session_id : Option String)
    (chainResult : Except Str (Str × List Document)) (latency : Nat) :
    Str × List Str × Nat :=
  match st.vector_store with
  | none => (noDocumentsMessage, [], latency)
  | some _ =>
    match chainResult with
    | .ok (answer, source_docs) =>
      (pyStrip answer, source_docs.map formatSource, latency)
    | .error e => (ragErrorPrefix ++ e, [], latency)

/-!
## Connectivity probe and health endpoint
-/

/--
`QAService.check_ollama_connection`: one trivial completion call (oracle
`probe`); any exception yields `false`, success yields `true`.
-/
def check_ollama_connection (probe : Except Str Str) : Bool :=
  match probe with
  | .ok _ => true
  | .error _ => false

/-- An HTTP response of the façade: a status code and a body. -/
structure HttpResponse (β : Type) where
  status_code : Nat
  body : β
deriving DecidableEq, Repr

/-- Body of `GET /health`: the `status` and `ollama_status` fields. -/
structure HealthBody where
  status : String
  ollama_status : String
deriving DecidableEq, Repr

/--
`health_check` (route `GET /health`).  Probes the connection, derives the two
status fields, and returns them with the route's default HTTP 200; the
handler's own `except` branch is unreachable because the probe already
absorbs every exception.
-/
def health_check (probe : Except Str Str) : HttpResponse HealthBody :=
  let ollama_connected := check_ollama_connection probe
  let ollama_status := if ollama_connected then "connected" else "disconnected"
  let api_status := if ollama_connected then "healthy" else "degraded"
  { status_code := 200, body := { status := api_status, ollama_status := ollama_status } }

/-!
## Upload endpoint (`upload_document` in `app/api/chat.py`)

The route body runs inside one `try` block whose `except Exception` clause
catches **every** exception — including the `HTTPException(status_code=400)`
values the body itself raises for a bad extension or empty content, since
FastAPI's `HTTPException` subclasses `Exception` — and re-raises each as an
`HTTPException(status_code=500)` whose detail wraps `str(e)`.
-/

/-- A Python exception as observed by the handler: either an
`HTTPException(status, detail)` or any other exception with its message. -/
inductive PyExc where
  | http (status : Nat) (detail : Str)
  | other (msg : Str)
deriving DecidableEq, Repr

/-- Python `str(e)`: Starlette renders an `HTTPException` as
`"{status_code}: {detail}"`; other exceptions render their message. -/
def strOfExc : PyExc → Str
  | .http status detail => natToStr status ++ str ": " ++ detail
  | .other msg => msg

/-- Success body of `POST /upload-document`. -/
structure UploadBody where
  message : Str
  filename : Str
  size : Nat
  doc_type : Str
  total_documents : Nat
deriving DecidableEq, Repr

/-- Outcome of the upload route: the JSON body on success, or the raised
`HTTPException`'s status code and detail. -/
inductive UploadOutcome where
  | success (body : UploadBody)
  | failure (status_code : Nat) (detail : Str)
deriving DecidableEq, Repr

/--
The `try` block of the upload route: extension check, decode (`decoded` is
the oracle for `content.decode("utf-8")`), empty-content check, then
`add_document` (with its embedding oracle).  Raised exceptions are returned
in `Except.error` together with the state left behind at the raise point.
-/
def uploadTryBlock (st : QAState) (filename : Str) (decoded : Except Str Str)
    (document_type : Str) (now : Nat) (embedFail : Option Str) :
    Except (PyExc × QAState) (UploadBody × QAState) :=
  if !(strEndsWith filename (str ".txt") || strEndsWith filename (str ".md")) then
    .error (.http 400 (str "Apenas arquivos .txt e .md são suportados"), st)
  else
    match decoded with
    | .error e => .error (.other e, st)
    | .ok content_str =>
      if (pyStrip content_str).isEmpty then
        .error (.http 400 (str "O arquivo está vazio"), st)
      else
        match add_document st content_str filename document_type now embedFail with
        | (some e, st') => .error (.other e, st')
        | (none, st') =>
          .ok ({ message := str "Documento " ++ filename ++ str " carregado com sucesso",
                 filename := filename,
                 size := content_str.length,
                 doc_type := document_type,
                 total_documents := get_document_count st' }, st')

/--
Route `POST /upload-document`: the `try` block above, wrapped by the
`except Exception` clause that converts every exception — the route's own
400s included — into `HTTPException(500, "Erro ao processar documento: "
+ str(e))`.
-/
def upload_document (st : QAState) (filename : Str) (decoded : Except Str Str)
    (document_type : Str) (now : Nat) (embedFail : Option Str) :
    UploadOutcome × QAState :=
  match uploadTryBlock st filename decoded document_type now embedFail with
  | .ok (body, st') => (.success body, st')
  | .error (e, st') =>
    (.failure 500 (str "Erro ao processar documento: " ++ strOfExc e), st')

/-!
## Theorems
-/

/--
C4: if no document has ever been ingested (the vector store is `None`),
`get_rag_response` returns the fixed "no documents loaded" sentinel and an
empty source list, for every question, session identifier and chain oracle —
in particular the result does not depend on any language-model call.
-/
theorem rag_no_documents_sentinel (st : QAState) (question : Str)
    (session_id : Option String) (chainResult : Except Str (Str × List Document))
    (latency : Nat) (h : st.vector_store = none) :
    get_rag_response st question session_id chainResult latency
      = (noDocumentsMessage, [], latency) := by
  simp [get_rag_response, h]

/-- Witness for `rag_no_documents_sentinel` at the freshly constructed service. -/
theorem rag_no_documents_sentinel_witness :
    get_rag_response initialState (str "qualquer pergunta") none
      (Except.ok (str "resp", [])) 3 = (noDocumentsMessage, [], 3) :=
  rag_no_documents_sentinel initialState (str "qualquer pergunta") none
    (Except.ok (str "resp", [])) 3 rfl

/--
C5: `get_chat_response` never raises: when the underlying chain call fails
with error text `e`, it returns the apologetic message embedding `e`,
paired with the latency measured up to the failure point, as a normal
(answer, latency) result.
-/
theorem chat_failure_returns_apology (st : QAState) (message : Str)
    (session_id : Option String) (e : Str) (latency : Nat) :
    (get_chat_response st message session_id (Except.error e) latency).1
      = (chatErrorPrefix ++ e, latency) := by
  simp [get_chat_response]

/--
C8: the connectivity probe returns a boolean — `false` on any probe failure,
`true` on success — never propagating the exception, and `GET /health`
answers HTTP 200 in both cases, the bodies differing only in the `status`
and `ollama_status` field values.
-/
theorem health_check_always_200 (probe : Except Str Str) (e r : Str) :
    check_ollama_connection (Except.error e) = false ∧
    check_ollama_connection (Except.ok r) = true ∧
    (health_check probe).status_code = 200 ∧
    ((health_check probe).body = ⟨"healthy", "connected"⟩ ∨
     (health_check probe).body = ⟨"degraded", "disconnected"⟩) := by
  refine ⟨rfl, rfl, rfl, ?_⟩
  cases probe <;> simp [health_check, check_ollama_connection]

/--
C9: `add_document` is not atomic on error: when the embedding/index call
fails with `e`, the exception propagates (`some e` is returned), the
document list has still grown by the new document — so the document count
increased by one — and the vector store is exactly what it was before, so
the index lacks the new document's content.
-/
theorem add_document_not_atomic (st : QAState) (content filename document_type : Str)
    (now : Nat) (e : Str) :
    (add_document st content filename document_type now (some e)).1 = some e ∧
    (add_document st content filename document_type now (some e)).2.documents
      = st.documents ++ [mkDocument content filename document_type now] ∧
    get_document_count (add_document st content filename document_type now (some e)).2
      = get_document_count st + 1 ∧
    (add_document st content filename document_type now (some e)).2.vector_store
      = st.vector_store := by
  refine ⟨rfl, rfl, ?_, rfl⟩
  simp [add_document, get_document_count]

/--
C10: a chat call without a session identifier never modifies the session
map, whether the model call succeeds or fails, so the active-session count
is unchanged by any anonymous chat.
-/
theorem anonymous_chat_preserves_sessions (st : QAState) (message : Str)
    (llmResult : Except Str Str) (latency : Nat) :
    ((get_chat_response st message none llmResult latency).2).sessions = st.sessions ∧
    get_session_count (get_chat_response st message none llmResult latency).2
      = get_session_count st := by
  cases llmResult <;>
    simp [get_chat_response, get_or_create_session_memory, writeBackMemory,
      get_session_count]

/-!
### Session-map lemmas
-/

lemma sessionMember_iff (l : List (String × Memory)) (sid : String) :
    sessionMember l sid = true ↔ sid ∈ l.map Prod.fst := by
  simp [sessionMember, List.find?_isSome, List.mem_map, beq_iff_eq]

lemma lookupSession_eq_none (l : List (String × Memory)) (sid : String)
    (h : sessionMember l sid = false) : lookupSession l sid = none := by
  cases hf : l.find? (fun p => p.1 == sid) with
  | none => simp [lookupSession, hf]
  | some p => simp [sessionMember, hf] at h

lemma sessionMember_append_self (l : List (String × Memory)) (sid : String)
    (h : sessionMember l sid = false) :
    sessionMember (l ++ [(sid, [])]) sid = true := by
  cases hf : l.find? (fun p => p.1 == sid) with
  | none => simp [sessionMember, List.find?_append, hf]
  | some p => simp [sessionMember, hf] at h

lemma lookupSession_append_self (l : List (String × Memory)) (sid : String)
    (h : sessionMember l sid = false) :
    lookupSession (l ++ [(sid, [])]) sid = some [] := by
  cases hf : l.find? (fun p => p.1 == sid) with
  | none => simp [lookupSession, List.find?_append, hf]
  | some p => simp [sessionMember, hf] at h

lemma lookupSession_map_update (l : List (String × Memory)) (sid : String) (m : Memory)
    (h : sessionMember l sid = true) :
    lookupSession (l.map (fun p => if p.1 == sid then (p.1, m) else p)) sid = some m := by
  induction l with
  | nil => simp [sessionMember] at h
  | cons q l ih =>
    cases hp : (q.1 == sid) with
    | true =>
      have e1 : (q :: l).map (fun p => if p.1 == sid then (p.1, m) else p)
          = (q.1, m) :: l.map (fun p => if p.1 == sid then (p.1, m) else p) := by
        have hqs : q.1 = sid := by simpa using hp
        simp [hqs]
      rw [e1]
      unfold lookupSession
      rw [show List.find? (fun p : String × Memory => p.1 == sid)
            ((q.1, m) :: l.map (fun p => if p.1 == sid then (p.1, m) else p))
          = some (q.1, m) from List.find?_cons_of_pos _ hp]
      rfl
    | false =>
      have h' : sessionMember l sid = true := by
        have e : List.find? (fun p : String × Memory => p.1 == sid) (q :: l)
            = List.find? (fun p : String × Memory => p.1 == sid) l :=
          List.find?_cons_of_neg _ (by simp [hp])
        unfold sessionMember at h ⊢
        rwa [e] at h
      have e1 : (q :: l).map (fun p => if p.1 == sid then (p.1, m) else p)
          = q :: l.map (fun p => if p.1 == sid then (p.1, m) else p) := by
        have hqs : ¬ q.1 = sid := by simpa using hp
        simp [hqs]
      rw [e1]
      unfold lookupSession
      rw [show List.find? (fun p : String × Memory => p.1 == sid)
            (q :: l.map (fun p => if p.1 == sid then (p.1, m) else p))
          = List.find? (fun p : String × Memory => p.1 == sid)
              (l.map (fun p => if p.1 == sid then (p.1, m) else p)) from
          List.find?_cons_of_neg _ (by simp [hp])]
      exact ih h'

lemma sessionMember_get_or_create (st : QAState) (sid : String) :
    sessionMember ((get_or_create_session_memory st (some sid)).2).sessions sid = true := by
  by_cases hm : sessionMember st.sessions sid = true
  · simp [get_or_create_session_memory, hm]
  · have hm' : sessionMember st.sessions sid = false := by simpa using hm
    simp [get_or_create_session_memory, hm', sessionMember_append_self _ _ hm']

lemma sessionMember_eraseP (l : List (String × Memory)) (sid : String)
    (hnd : (l.map Prod.fst).Nodup) :
    sessionMember (l.eraseP (fun p => p.1 == sid)) sid = false := by
  induction l with
  | nil => rfl
  | cons q l ih =>
    simp only [List.map_cons, List.nodup_cons] at hnd
    cases hp : (q.1 == sid) with
    | true =>
      have e : (q :: l).eraseP (fun p => p.1 == sid) = l := by
        rw [List.eraseP_cons]; simp [hp]
      rw [e]
      have hqs : q.1 = sid := by simpa using hp
      rw [Bool.eq_false_iff]
      intro hmem
      exact hnd.1 (by rw [hqs]; exact (sessionMember_iff l sid).mp hmem)
    | false =>
      have e : (q :: l).eraseP (fun p => p.1 == sid)
          = q :: l.eraseP (fun p => p.1 == sid) := by
        rw [List.eraseP_cons]; simp [hp]
      rw [e]
      have e2 : List.find? (fun p : String × Memory => p.1 == sid)
          (q :: l.eraseP (fun p => p.1 == sid))
          = List.find? (fun p : String × Memory => p.1 == sid)
              (l.eraseP (fun p => p.1 == sid)) :=
        List.find?_cons_of_neg _ (by simp [hp])
      unfold sessionMember
      rw [e2]
      exact ih hnd.2

lemma sessionMember_clear (st : QAState) (sid : String)
    (hnd : (st.sessions.map Prod.fst).Nodup) :
    sessionMember (clear_session_memory st sid).sessions sid = false := by
  unfold clear_session_memory
  by_cases hm : sessionMember st.sessions sid = true
  · simpa [hm] using sessionMember_eraseP st.sessions sid hnd
  · have hm' : sessionMember st.sessions sid = false := by simpa using hm
    simp [hm']

/--
C6: the session store's get-or-create: an absent identifier yields a fresh,
empty, unshared history and leaves the state untouched — in particular a
second anonymous call after a completed anonymous chat still sees an empty
history; a present identifier makes subsequent calls with the same
identifier return the same entry, and a completed chat grows exactly that
entry by the new user/assistant turns.
-/
theorem session_get_or_create_spec (st : QAState) (message response : Str)
    (latency : Nat) (sid : String) :
    get_or_create_session_memory st none = ([], st) ∧
    (get_or_create_session_memory
        (get_chat_response st message none (Except.ok response) latency).2 none).1 = [] ∧
    get_or_create_session_memory
        ((get_or_create_session_memory st (some sid)).2) (some sid)
      = get_or_create_session_memory st (some sid) ∧
    lookupSession
        ((get_chat_response st message (some sid) (Except.ok response) latency).2).sessions
        sid
      = some ((get_or_create_session_memory st (some sid)).1
          ++ [(Role.human, message), (Role.ai, response)]) := by
  refine ⟨rfl, rfl, ?_, ?_⟩
  · by_cases hm : sessionMember st.sessions sid = true
    · simp [get_or_create_session_memory, hm]
    · have hm' : sessionMember st.sessions sid = false := by simpa using hm
      have h2 := sessionMember_append_self st.sessions sid hm'
      have h3 := lookupSession_append_self st.sessions sid hm'
      simp [get_or_create_session_memory, hm', h2, h3]
  · have hmem := sessionMember_get_or_create st sid
    simpa [get_chat_response, writeBackMemory] using
      lookupSession_map_update _ sid _ hmem

/--
C7: clearing a session removes its entry (its lookup afterwards is `none`),
clearing an identifier with no entry is a no-op raising no error, and a
chat issued after clearing behaves as a brand-new session: it resolves an
empty prior history and records exactly the two new turns.
-/
theorem clear_session_spec (st : QAState) (sid : String) (message response : Str)
    (latency : Nat) (hnd : (st.sessions.map Prod.fst).Nodup) :
    lookupSession (clear_session_memory st sid).sessions sid = none ∧
    (sessionMember st.sessions sid = false → clear_session_memory st sid = st) ∧
    (get_or_create_session_memory (clear_session_memory st sid) (some sid)).1 = [] ∧
    lookupSession
        ((get_chat_response (clear_session_memory st sid) message (some sid)
            (Except.ok response) latency).2).sessions sid
      = some [(Role.human, message), (Role.ai, response)] := by
  have hc := sessionMember_clear st sid hnd
  refine ⟨lookupSession_eq_none _ _ hc, ?_, ?_, ?_⟩
  · intro hm; simp [clear_session_memory, hm]
  · simp [get_or_create_session_memory, hc]
  · have hm2 := sessionMember_append_self (clear_session_memory st sid).sessions sid hc
    simpa [get_chat_response, get_or_create_session_memory, hc, writeBackMemory] using
      lookupSession_map_update _ sid _ hm2

/-- A concrete service state with one stored session, for the C7 witness. -/
def witSessionState : QAState :=
  { sessions := [("s1", [(Role.human, str "oi"), (Role.ai, str "olá")])],
    documents := [], vector_store := none }

/-- Witness for `clear_session_spec` at a concrete one-session state. -/
theorem clear_session_spec_witness :
    lookupSession (clear_session_memory witSessionState "s1").sessions "s1" = none ∧
    (sessionMember witSessionState.sessions "s1" = false →
      clear_session_memory witSessionState "s1" = witSessionState) ∧
    (get_or_create_session_memory (clear_session_memory witSessionState "s1")
        (some "s1")).1 = [] ∧
    lookupSession
        ((get_chat_response (clear_session_memory witSessionState "s1") (str "m")
            (some "s1") (Except.ok (str "r")) 9).2).sessions "s1"
      = some [(Role.human, str "m"), (Role.ai, str "r")] :=
  clear_session_spec witSessionState "s1" (str "m") (str "r") 9 (by simp [witSessionState])

/-!
### Index-content lemmas (C1)
-/

lemma indexContents_runAdds_some (ins : List AddInput) :
    ∀ (st : QAState) (vs : VectorStore), st.vector_store = some vs →
      indexContents (runAdds st ins)
        = vs.entries.map (·.page_content) ++ ins.map (fun i => i.1) := by
  induction ins with
  | nil =>
    intro st vs h
    simp [runAdds, indexContents, h]
  | cons i rest ih =>
    intro st vs h
    obtain ⟨c, f, t, now⟩ := i
    have hstep : (add_document st c f t now none).2.vector_store
        = some ⟨vs.entries ++ [mkDocument c f t now]⟩ := by
      simp [add_document, h]
    show indexContents (runAdds (add_document st c f t now none).2 rest) = _
    rw [ih _ _ hstep]
    simp [mkDocument, List.append_assoc]

/--
What the running index actually holds after a successful ingestion run: for
the first document, its corpus-wide chunk list; for every later document,
the raw unsplit content.
-/
def expectedIndex : List AddInput → List Str
  | [] => []
  | (c, _, _, _) :: rest => splitChars c ++ rest.map (fun i => i.1)

/--
C1 amended: after any sequence of successful `add_document` calls from the
fresh service, the similarity index's contents are the chunk list of the
*first* ingested document followed by the *full, unsplit* content of every
subsequent document — the index is initialized from the corpus-wide chunk
list at the first ingestion, but each later merge indexes the raw new
document, so the index's content set equals the union of all ingested
chunks only when every later document fits in a single chunk.
-/
theorem index_contents_characterization (ins : List AddInput) :
    indexContents (runAdds initialState ins) = expectedIndex ins := by
  cases ins with
  | nil => rfl
  | cons i rest =>
    obtain ⟨c, f, t, now⟩ := i
    have hstep : (add_document initialState c f t now none).2.vector_store
        = some ⟨splitDocuments [mkDocument c f t now]⟩ := by
      simp [add_document, initialState]
    show indexContents (runAdds (add_document initialState c f t now none).2 rest) = _
    rw [indexContents_runAdds_some rest _ _ hstep]
    simp [expectedIndex, splitDocuments, splitDocument, List.map_map, mkDocument,
      Function.comp_def, List.map_id']

/-- First ingestion of the C1 counterexample run: a one-character document. -/
def cexShortAdd : AddInput := (str "a", str "a.txt", str "text", 0)

/-- Second ingestion of the C1 counterexample run: a 1001-character document,
long enough to be cut into two chunks. -/
def cexLongAdd : AddInput := (List.replicate 1001 'b', str "b.txt", str "text", 1)

/-- The state after the two successful ingestions of the counterexample run. -/
def cexC1State : QAState := runAdds initialState [cexShortAdd, cexLongAdd]

set_option maxRecDepth 100000

/--
Counterexample to C1 as stated: after two successful `add_document` calls —
the second with 1001 characters of content — the first chunk of the second
document belongs to the corpus-wide chunk union but not to the similarity
index, whose second entry is the unsplit 1001-character document; so the
index's content set does not equal the union of the ingested chunks.
-/
theorem index_chunk_union_counterexample :
    List.replicate 1000 'b' ∈ corpusChunkContents cexC1State ∧
    List.replicate 1000 'b' ∉ indexContents cexC1State := by
  constructor
  · decide
  · decide

/-!
### Source formatting (C3) and the upload route (C2)
-/

lemma sourceExcerpt_length_le (c : Str) : (sourceExcerpt c).length ≤ 203 := by
  have h3 : (str "...").length = 3 := rfl
  by_cases h : c.length > 200
  · simp [sourceExcerpt, h, List.length_take, h3]
  · simp [sourceExcerpt, h]
    omega

/--
C3 amended: with at least one document ingested, and the retriever
returning at most 3 documents drawn from the vector store (the `k = 3`
retrieval contract), `get_rag_response` returns at most 3 sources; each
source is the tag `[filename]` of its originating document followed by a
space and an excerpt of at most 203 characters (content truncated to 200
plus an ellipsis when longer) — so the whole source string is bounded by
the filename length plus 206, not by 203.
-/
theorem rag_sources_shape (st : QAState) (vs : VectorStore) (question : Str)
    (session_id : Option String) (answer : Str) (source_docs : List Document)
    (latency : Nat) (hvs : st.vector_store = some vs)
    (hk : source_docs.length ≤ 3)
    (hmem : ∀ d ∈ source_docs, d ∈ vs.entries) :
    (get_rag_response st question session_id (Except.ok (answer, source_docs))
        latency).2.1.length ≤ 3 ∧
    ∀ s ∈ (get_rag_response st question session_id (Except.ok (answer, source_docs))
        latency).2.1,
      ∃ d ∈ source_docs, d ∈ vs.entries ∧
        s = ('[' :: d.filename ++ str "] ") ++ sourceExcerpt d.page_content ∧
        (sourceExcerpt d.page_content).length ≤ 203 := by
  constructor
  · simpa [get_rag_response, hvs] using hk
  · intro s hs
    simp only [get_rag_response, hvs] at hs
    rw [List.mem_map] at hs
    obtain ⟨d, hd, rfl⟩ := hs
    exact ⟨d, hd, hmem d hd, rfl, sourceExcerpt_length_le _⟩

/-- The document ingested for the C3 witness. -/
def ragWitDoc : Document :=
  mkDocument (str "conteudo de teste") (str "nota.txt") (str "text") 0

/-- The service state after ingesting the C3 witness document. -/
def ragWitState : QAState :=
  (add_document initialState (str "conteudo de teste") (str "nota.txt")
    (str "text") 0 none).2

/-- Witness for `rag_sources_shape` after one concrete ingestion. -/
theorem rag_sources_shape_witness :
    (get_rag_response ragWitState (str "q") none
        (Except.ok (str "resposta", [ragWitDoc])) 4).2.1.length ≤ 3 ∧
    ∀ s ∈ (get_rag_response ragWitState (str "q") none
        (Except.ok (str "resposta", [ragWitDoc])) 4).2.1,
      ∃ d ∈ [ragWitDoc], d ∈ (VectorStore.mk [ragWitDoc]).entries ∧
        s = ('[' :: d.filename ++ str "] ") ++ sourceExcerpt d.page_content ∧
        (sourceExcerpt d.page_content).length ≤ 203 :=
  rag_sources_shape ragWitState ⟨[ragWitDoc]⟩ (str "q") none (str "resposta")
    [ragWitDoc] 4 (by decide) (by decide) (by decide)

/-- The 300-character document of the C3 counterexample. -/
def cexRagDoc : Document :=
  mkDocument (List.replicate 300 'x') (str "a.txt") (str "text") 0

/-- The service state after ingesting the C3 counterexample document. -/
def cexRagState : QAState :=
  (add_document initialState (List.replicate 300 'x') (str "a.txt")
    (str "text") 0 none).2

/--
Counterexample to C3 as stated: after ingesting one 300-character document,
a retrieval that returns that single stored document produces exactly one
source string of length 211 — the `[a.txt] ` tag plus the 203-character
excerpt — which exceeds the claimed 203-character bound.
-/
theorem source_length_counterexample :
    cexRagState.vector_store = some ⟨[cexRagDoc]⟩ ∧
    (get_rag_response cexRagState (str "q") none
        (Except.ok (str "resposta", [cexRagDoc])) 5).2.1.length = 1 ∧
    ∀ s ∈ (get_rag_response cexRagState (str "q") none
        (Except.ok (str "resposta", [cexRagDoc])) 5).2.1,
      s.length = 211 ∧ ¬ s.length ≤ 203 := by
  refine ⟨by decide, by decide, by decide⟩

/--
C2 (code bug): at the failing input — an upload whose filename ends in
neither `.txt` nor `.md` — the route returns HTTP **500**, not the 400 the
route body tried to raise: the `HTTPException(400)` is caught by the
route's own `except Exception` clause and re-raised as a 500 whose detail
wraps the stringified 400.  The document count is unchanged, as claimed.
-/
theorem upload_bad_extension_returns_500 :
    upload_document initialState (str "doc.pdf") (Except.ok (str "conteudo"))
        (str "text") 0 none
      = (UploadOutcome.failure 500
          (str "Erro ao processar documento: 400: Apenas arquivos .txt e .md são suportados"),
         initialState) ∧
    get_document_count (upload_document initialState (str "doc.pdf")
        (Except.ok (str "conteudo")) (str "text") 0 none).2
      = get_document_count initialState := by
  refine ⟨by decide, by decide⟩
